import Mathlib

/- Shallow embedding of the deepmd-jax molecular-dynamics driver:
   src/deepmd_jax/md.py and src/examples/simulate.py.
   Machine floats are embedded as exact rationals; array shapes become lists. -/

/- Positions, boxes and displacements are 3-component rational vectors. -/
abbrev Vec3 := ℚ × ℚ × ℚ

/- ---------- Unit-conversion constants ---------- -/

/- md.py line 9: mass_unit_convertion = 1.036427e2 (AMU to eV fs^2 / A^2). -/
def mass_unit_convertion : ℚ := 1036427 / 10000

/- md.py line 10: temperature_unit_convertion = 8.617333e-5 (Kelvin to eV). -/
def temperature_unit_convertion : ℚ := 8617333 / 100000000000

/- md.py line 11: pressure_unit_convertion = 6.241509e-7 (bar to eV / A^3). -/
def pressure_unit_convertion : ℚ := 6241509 / 10000000000000

/- simulate.py line 34: temp = 350 * 8.61733e-5 -- the factor applied there. -/
def simulate_temp_factor : ℚ := 861733 / 10000000000

/- simulate.py line 35: mass = np.array([...]) * 1.036427e2 -- the factor applied there. -/
def simulate_mass_factor : ℚ := 1036427 / 10000

/- ---------- Box descriptors and mode selection (md.py lines 30-34) ---------- -/

/- A box is passed either as a 3-vector of orthorhombic lengths (shape (3,))
   or as a general 3x3 matrix given by its rows (shape (3,3)). -/
inductive BoxDesc : Type
| ortho (x y z : ℚ)
| full (r1 r2 r3 : Vec3)

/- md.py lines 30-34: branches on box.shape == (3,3) but returns False in both arms;
   the rcut argument is never consulted. -/
def check_if_use_neighbor_list (box : BoxDesc) (rcut : ℚ) : Bool :=
  match box with
  | BoxDesc.full _ _ _ => false
  | BoxDesc.ortho _ _ _ => false

/- The mode-selection rule as the specification states it (spec 4.1): use a neighbor
   list exactly when the box is orthorhombic and twice the cutoff is below the
   shortest box dimension.  Kept separate so it can be compared with the source
   function above. -/
def use_neighbor_list_claim (box : BoxDesc) (rcut : ℚ) : Bool :=
  match box with
  | BoxDesc.ortho x y z => decide (2 * rcut < min x (min y z))
  | BoxDesc.full _ _ _ => false

/- ---------- Python numeric helpers ---------- -/

/- Python int(q): truncation toward zero. -/
def py_trunc (q : ℚ) : ℤ := if 0 ≤ q then ⌊q⌋ else -⌊-q⌋

/- Python / numpy a % b for b > 0 (result carries the divisor sign). -/
def qmod (a b : ℚ) : ℚ := a - b * ⌊a / b⌋

/- ---------- Neighbor-skin drift check (md.py lines 237-239) ---------- -/

/- One component of (coord - ref - box/2) % box - box/2: the minimum-image
   displacement component, lying in [-box/2, box/2). -/
def min_image (d b : ℚ) : ℚ := qmod (d - b / 2) b - b / 2

/- Squared minimum-image displacement of one atom (the quantity under the
   euclidean norm taken along axis -1). -/
def sq_disp (c r box : Vec3) : ℚ :=
  (min_image (c.1 - r.1) box.1) ^ 2 +
  (min_image (c.2.1 - r.2.1) box.2.1) ^ 2 +
  (min_image (c.2.2 - r.2.2) box.2.2) ^ 2

/- Comparison "sqrt sq > t" done on the squares: exact for nonnegative sq since
   the norm is nonnegative (certified by norm_gt_iff_sqrt below). -/
def norm_gt (sq t : ℚ) : Bool := if t < 0 then true else decide (t ^ 2 < sq)

/- md.py lines 237-239: NeighborList.check_dr_overflow -- any atom whose
   minimum-image displacement norm exceeds dr_buffer/2 - 0.01. -/
def check_dr_overflow (coord ref : List Vec3) (box : Vec3) (dr_buffer : ℚ) : Bool :=
  (coord.zip ref).any (fun p => norm_gt (sq_disp p.1 p.2 box) (dr_buffer / 2 - 1 / 100))

/- The drift check as the specification words it (spec 4.2): true iff some atom
   moved more than half the buffer, with no extra margin. -/
def check_dr_overflow_claim (coord ref : List Vec3) (box : Vec3) (dr_buffer : ℚ) : Bool :=
  (coord.zip ref).any (fun p => norm_gt (sq_disp p.1 p.2 box) (dr_buffer / 2))

/- ---------- Neighbor-list capacity sizing (md.py lines 224-234) ---------- -/

/- md.py line 229: knbr entry before padding, int(observed_max * size). -/
def knbr_entry (occ : ℕ) (size : ℚ) : ℕ := (py_trunc ((occ : ℚ) * size)).toNat

/- md.py line 230: np.where(knbr == 0, 1, knbr + 1 + max(int(20*(size-1.2)), 0)). -/
def knbr_final (occ : ℕ) (size : ℚ) : ℕ :=
  if knbr_entry occ size = 0 then 1
  else knbr_entry occ size + 1 + (max (py_trunc (20 * (size - 6 / 5))) 0).toNat

/- NeighborList.allocate recomputes the per-type row capacities afresh from the
   per-type maximum occupancy observed in the current configuration. -/
def allocate_knbr (occs : List ℕ) (size : ℚ) : List ℕ :=
  occs.map (fun occ => knbr_final occ size)

/- ---------- Soft-overflow stub and inner step (md.py lines 138-165) ---------- -/

/- md.py lines 138-140: Simulation.check_soft_overflow -- the body is just
   "return False". -/
def check_soft_overflow (position ref_position : List Vec3) (box : Option Vec3) : Bool :=
  false

/- md.py lines 148-151: the lax.cond in get_inner_step choosing between
   nbrs.update and the unchanged neighbor state. -/
def inner_step_nbrs {ν : Type} (update : ν → ν) (nbrs : ν) (soft : Bool) : ν :=
  if soft then update nbrs else nbrs

/- The neighbor-state component threaded through one compiled chunk of inner
   steps: each step supplies (position, reference_position, npt box). -/
def chunk_nbrs {ν : Type} (update : ν → ν) (nbrs : ν)
    (steps : List (List Vec3 × List Vec3 × Option Vec3)) : ν :=
  steps.foldl
    (fun n st => inner_step_nbrs update n (check_soft_overflow st.1 st.2.1 st.2.2)) nbrs

/- ---------- The simulate.py while-loop (lines 117-177) ---------- -/

/- Modelled from the spec: NeighborListLoader (module deepmd_jax.simulation_utils is
   not under src) stores the buffer-safety factor given at construction, and its
   allocate method sizes the fresh neighbor table with that stored factor. -/
structure Loader where
  size : ℚ

/- What one compiled chunk (lax.scan of multi_step_fn) hands back to the host:
   the advanced state, the per-step position and velocity frames, and the two
   overflow flags read at the chunk boundary. -/
structure ChunkOut (σ α : Type) where
  state_new : σ
  pos : List α
  vel : List α
  nbr_overflow : Bool
  rcut_overflow : Bool

/- Host-side loop variables of simulate.py: step counter i, simulation state,
   NBRS_FLAG, buffer_size, the bound NeighborListLoader, update_every, the two
   trajectory accumulators, the safety factor used by the last reallocation,
   and whether the loop was broken out of. -/
structure LoopState (σ α : Type) where
  i : ℕ
  state : σ
  nbrs_flag : Bool
  buffer_size : ℚ
  neighborlist : Loader
  update_every : ℕ
  pos_traj : List α
  vel_traj : List α
  last_alloc_factor : Option ℚ
  aborted : Bool

/- Python list slicing l[k-1::k]: every k-th frame starting at index k-1. -/
def stride_sample {α : Type} (l : List α) (k : ℕ) : List α :=
  (List.range l.length).filterMap (fun j => if (j + 1) % k = 0 then l[j]? else none)

/- One iteration of the while loop in simulate.py (lines 134-177, neighbor-list
   path).  On neighbor-buffer overflow (lines 153-162): if NBRS_FLAG was already
   set, buffer_size is increased and a NeighborListLoader with the increased
   factor is constructed on line 157 but not bound to any name, so the
   reallocation on line 160 still runs through the old loader, whose stored
   factor is recorded here in last_alloc_factor; state, i and the trajectories
   are untouched and the iteration ends with continue.  On rcut overflow (lines
   164-172): abort when update_every is already 1, else halve update_every and
   retry.  Otherwise the chunk is committed and both trajectory accumulators
   append the strided *position* frames (lines 176-177). -/
def loop_body {σ α : Type} (chunk : σ → ChunkOut σ α) (save_every print_every : ℕ)
    (s : LoopState σ α) : LoopState σ α :=
  let out := chunk s.state
  if out.nbr_overflow then
    if s.nbrs_flag then
      { s with nbrs_flag := false, buffer_size := s.buffer_size + 5 / 100,
               last_alloc_factor := some s.neighborlist.size }
    else
      { s with nbrs_flag := true, last_alloc_factor := some s.neighborlist.size }
  else if out.rcut_overflow then
    if s.update_every = 1 then { s with nbrs_flag := false, aborted := true }
    else { s with nbrs_flag := false, update_every := max (s.update_every / 2) 1 }
  else
    { s with nbrs_flag := false,
             state := out.state_new,
             i := s.i + s.update_every * (print_every / s.update_every),
             pos_traj := s.pos_traj ++ stride_sample out.pos save_every,
             vel_traj := s.vel_traj ++ stride_sample out.pos save_every }

/- Concrete chunk outcomes and start states used to evaluate the loop. -/
def chunk_no_overflow : ℚ → ChunkOut ℚ ℚ := fun st => ⟨st, [3], [7], false, false⟩

def chunk_nbr_overflow : ℚ → ChunkOut ℚ ℚ := fun st => ⟨st, [], [], true, false⟩

def chunk_rcut_overflow : ℚ → ChunkOut ℚ ℚ := fun st => ⟨st, [], [], false, true⟩

def s_start : LoopState ℚ ℚ :=
  { i := 0, state := 0, nbrs_flag := false, buffer_size := 6 / 5,
    neighborlist := ⟨6 / 5⟩, update_every := 5, pos_traj := [], vel_traj := [],
    last_alloc_factor := none, aborted := false }

def s_escalate : LoopState ℚ ℚ :=
  { s_start with nbrs_flag := true }

def s_single : LoopState ℚ ℚ :=
  { s_start with update_every := 1 }

/- ---------- Type/device partitioner (md.py lines 192-206 and 240-251) ---------- -/

/- numpy -(-a // K): ceiling division. -/
def ceil_div (a b : ℕ) : ℕ := (a + b - 1) / b

/- md.py line 196: type_count_new = -(-type_count // K). -/
def type_count_new (K : ℕ) (tc : List ℕ) : List ℕ := tc.map (fun c => ceil_div c K)

/- md.py line 197: type_idx_filled_each = cumsum([0] ++ type_count_new), entry i. -/
def type_idx_filled (K : ℕ) (tc : List ℕ) (i : ℕ) : ℕ := ((type_count_new K tc).take i).sum

/- md.py line 198: N_each, atoms slots per device after per-type padding. -/
def n_each (K : ℕ) (tc : List ℕ) : ℕ := (type_count_new K tc).sum

/- The out-of-range fill value N_each * K used by the mask functions. -/
def sentinel (K : ℕ) (tc : List ℕ) : ℕ := n_each K tc * K

/- Modelled from the spec: get_mask_by_device (md.py line 195; its defining module
   is not under src) marks, over the padded device-sharded atom layout, the slots
   that hold real atoms of some type, as opposed to per-device fill slots
   (spec 4.3: contiguous per-device blocks with per-type padding). -/
def slot_real (K : ℕ) (tc : List ℕ) (r : ℕ) : Bool :=
  decide (r < sentinel K tc) &&
  (List.range tc.length).any (fun i =>
    decide (type_idx_filled K tc i ≤ r % n_each K tc) &&
    decide (r % n_each K tc < type_idx_filled K tc (i + 1)) &&
    decide ((r / n_each K tc) * (type_count_new K tc).getD i 0 +
              (r % n_each K tc - type_idx_filled K tc i) < tc.getD i 0))

/- md.py lines 200-203: the condition under which mask_fn for type i keeps a
   neighbor index v appearing in the row of receiver slot r.  The third factor
   is Python integer arithmetic, hence computed in ℤ. -/
def mask_cond (K : ℕ) (tc : List ℕ) (i r v : ℕ) : Bool :=
  slot_real K tc r &&
  decide (type_idx_filled K tc i ≤ v % n_each K tc) &&
  decide (v % n_each K tc < type_idx_filled K tc (i + 1)) &&
  decide ((v : ℤ) - (type_idx_filled K tc i : ℤ) -
            ((v / n_each K tc : ℕ) : ℤ) *
              ((n_each K tc : ℤ) - ((type_count_new K tc).getD i 0 : ℤ)) <
            (tc.getD i 0 : ℤ)) &&
  decide (v < sentinel K tc)

/- md.py line 204: jnp.where(cond, idx, N_each * K). -/
def mask_apply (K : ℕ) (tc : List ℕ) (i r v : ℕ) : ℕ :=
  if mask_cond K tc i r v then v else sentinel K tc

/- md.py line 244: -top_k(-masked_row, knbr_i) keeps the knbr_i smallest masked
   indices of the row, in ascending order. -/
def kept_row (K : ℕ) (tc : List ℕ) (i r k : ℕ) (row : List ℕ) : List ℕ :=
  (List.insertionSort (· ≤ ·) (row.map (mask_apply K tc i r))).take k

/- md.py line 250, inner test: the kept row is entirely real indices
   (its maximum is below the sentinel), i.e. the row filled up. -/
def row_full (K : ℕ) (tc : List ℕ) (kept : List ℕ) : Bool :=
  decide (kept.foldr max 0 < sentinel K tc)

/- md.py line 250: the overflow flag returned by NeighborList.get_nm -- some
   per-type table has a completely full row, or the underlying jax-md neighbor
   list already reported a buffer overflow. -/
def get_nm_overflow (K : ℕ) (tc knbr : List ℕ) (table : List (List ℕ))
    (did_buffer_overflow : Bool) : Bool :=
  ((List.range tc.length).any (fun i =>
    (List.range table.length).any (fun r =>
      row_full K tc (kept_row K tc i r (knbr.getD i 0) (table.getD r []))))) ||
  did_buffer_overflow

/- A true (real-atom) slot of type i in the padded device-sharded layout: in
   range, inside the block of type i on its device, and not a fill slot. -/
def real_slot_of_type (K : ℕ) (tc : List ℕ) (i v : ℕ) : Prop :=
  v < sentinel K tc ∧
  type_idx_filled K tc i ≤ v % n_each K tc ∧
  v % n_each K tc < type_idx_filled K tc (i + 1) ∧
  (v / n_each K tc) * (type_count_new K tc).getD i 0 +
      (v % n_each K tc - type_idx_filled K tc i) < tc.getD i 0

instance (K : ℕ) (tc : List ℕ) (i v : ℕ) : Decidable (real_slot_of_type K tc i v) := by
  unfold real_slot_of_type; infer_instance

/- ---------- Simulation construction errors (md.py lines 43-123) ---------- -/

/- Non-positive entry among the box dimensions (diagonal for a full matrix). -/
def box_has_nonpositive_dim (box : BoxDesc) : Bool :=
  match box with
  | BoxDesc.ortho x y z => decide (x ≤ 0) || decide (y ≤ 0) || decide (z ≤ 0)
  | BoxDesc.full r1 r2 r3 => decide (r1.1 ≤ 0) || decide (r2.2.1 ≤ 0) || decide (r3.2.2 ≤ 0)

/- Modelled from the spec: compute_lattice_candidate (module deepmd_jax.data, not
   under src) treats a malformed box -- a non-positive dimension -- as a fatal
   configuration error (spec 4.1).  It is reached from Simulation.__init__ via
   get_static_args, since check_if_use_neighbor_list always yields False. -/
def compute_lattice_candidate_error (box : BoxDesc) : Option String :=
  if box_has_nonpositive_dim box then some "malformed box: non-positive dimension"
  else none

/- md.py lines 89-108: the routine dispatch and its raises. -/
def routine_error (routine : String) (has_temperature has_pressure : Bool) : Option String :=
  if routine = "NVE" then none
  else if routine = "NVT_Nose_Hoover" then
    if has_temperature then none
    else some "Please provide extra argument temperature for routine NVT_Nose_Hoover in Kelvin"
  else if routine = "NPT_Nose_Hoover" then
    if has_temperature = false then
      some "Please provide extra argument temperature for routine NPT_Nose_Hoover in Kelvin"
    else if has_pressure = false then
      some "Please provide extra argument pressure for routine NPT_Nose_Hoover in bar"
    else none
  else some "routine is currently limited to NVE, NVT_Nose_Hoover, NPT_Nose_Hoover"

/- The fatal configuration errors raised by Simulation.__init__, in source order:
   line 54 raises only when BOTH velocity and init_temperature are absent; the
   lattice-candidate box error follows (via get_static_args, lines 74-81); the
   routine checks come last (lines 89-108).  No other validation is performed. -/
def init_error (velocity init_temperature : Option ℚ) (routine : String)
    (has_temperature has_pressure : Bool) (box : BoxDesc) : Option String :=
  if velocity.isNone && init_temperature.isNone then
    some "Please either provide velocity or init_temperature to initialize velocity"
  else match compute_lattice_candidate_error box with
  | some e => some e
  | none => routine_error routine has_temperature has_pressure

/- The error condition exactly as the claim words it: missing required routine
   parameter, unsupported routine name, non-positive box dimension, or violation
   of the rule that exactly one of velocity / initial temperature is supplied. -/
def fatal_error_claim_condition (velocity init_temperature : Option ℚ) (routine : String)
    (has_temperature has_pressure : Bool) (box : BoxDesc) : Prop :=
  (routine = "NVT_Nose_Hoover" ∧ has_temperature = false) ∨
  (routine = "NPT_Nose_Hoover" ∧ (has_temperature = false ∨ has_pressure = false)) ∨
  (routine ≠ "NVE" ∧ routine ≠ "NVT_Nose_Hoover" ∧ routine ≠ "NPT_Nose_Hoover") ∨
  box_has_nonpositive_dim box = true ∨
  ¬ (velocity.isSome ≠ init_temperature.isSome)

/- md.py lines 113-123: the velocity held by the state once construction is
   done.  init_fn samples a velocity at kT (represented by the given sampled
   value); line 122 overwrites it with the velocity argument only when
   init_temperature is None, so when both inputs are supplied the explicit
   velocity argument is ignored and the kT-sampled velocity is kept. -/
def init_velocity_used (velocity init_temperature : Option ℚ) (sampled : ℚ) : Option ℚ :=
  if init_temperature.isNone then velocity else some sampled

/- ---------- Helper lemmas ---------- -/

theorem foldr_max_lt (l : List ℕ) (S : ℕ) (hS : 0 < S) (h : ∀ x ∈ l, x < S) :
    l.foldr max 0 < S := by
  induction l with
  | nil => simpa
  | cons a l ih =>
    simp only [List.foldr_cons]
    exact max_lt (h a (List.mem_cons_self a l))
      (ih fun x hx => h x (List.mem_cons_of_mem a hx))

theorem sq_disp_nonneg (c r box : Vec3) : 0 ≤ sq_disp c r box := by
  unfold sq_disp; positivity

theorem norm_gt_iff_sqrt (sq t : ℚ) :
    norm_gt sq t = true ↔ (t : ℝ) < Real.sqrt ((sq : ℚ) : ℝ) := by
  unfold norm_gt
  rcases lt_or_le t 0 with ht | ht
  · simp only [if_pos ht, true_iff]
    have h0 : (t : ℝ) < 0 := by exact_mod_cast ht
    exact lt_of_lt_of_le h0 (Real.sqrt_nonneg _)
  · rw [if_neg (not_lt.mpr ht), decide_eq_true_eq,
      Real.lt_sqrt (by exact_mod_cast ht : (0 : ℝ) ≤ (t : ℚ))]
    exact_mod_cast Iff.rfl

/- ---------- Claim theorems ---------- -/

/-- Claim C1: the array persisted under the _vel suffix is built from vel_traj, and
simulate.py line 177 appends the strided *position* frames to vel_traj, so the
saved velocity file holds positions, not velocities: with a chunk whose position
frame is 3 and velocity frame is 7, vel_traj receives 3. -/
theorem C1_vel_file_holds_positions :
    (loop_body chunk_no_overflow 1 5 s_start).vel_traj = [3] ∧
    (chunk_no_overflow s_start.state).vel = [7] ∧ ((3 : ℚ) ≠ 7) := by
  refine ⟨rfl, rfl, by norm_num⟩

/-- Claim C2: the mode-selection function check_if_use_neighbor_list returns False
even for an orthorhombic box with twice the cutoff below the shortest dimension
(box (10,10,10), rcut 3), where the specified decision rule selects neighbor-list
mode. -/
theorem C2_mode_selection_always_lattice :
    check_if_use_neighbor_list (BoxDesc.ortho 10 10 10) 3 = false ∧
    use_neighbor_list_claim (BoxDesc.ortho 10 10 10) 3 = true := by
  refine ⟨rfl, ?_⟩
  simp only [use_neighbor_list_claim, decide_eq_true_eq]
  norm_num

/-- Claim C3: on a second consecutive neighbor-buffer overflow the loop increases
buffer_size from 1.2 to 1.25, but the reallocation still runs through the old
loader whose stored factor is 1.2 (the escalated loader built on line 157 of
simulate.py is never bound); and a cutoff-buffer overflow with update_every
already 1 aborts the loop. -/
theorem C3_escalated_buffer_discarded :
    (loop_body chunk_nbr_overflow 1 200 s_escalate).buffer_size = 5 / 4 ∧
    (loop_body chunk_nbr_overflow 1 200 s_escalate).last_alloc_factor = some (6 / 5) ∧
    (loop_body chunk_nbr_overflow 1 200 s_escalate).neighborlist.size = 6 / 5 ∧
    ((6 : ℚ) / 5 ≠ 5 / 4) ∧
    (loop_body chunk_rcut_overflow 1 200 s_single).aborted = true := by
  have h1 : (loop_body chunk_nbr_overflow 1 200 s_escalate).buffer_size
      = 6 / 5 + 5 / 100 := rfl
  refine ⟨h1.trans (by norm_num), rfl, rfl, by norm_num, rfl⟩

/-- Claim C4: if the chunk reports a neighbor-buffer or cutoff-buffer overflow,
the loop iteration leaves the step counter, the simulation state and both
trajectory accumulators exactly as they were before the chunk: the provisional
chunk results are discarded atomically. -/
theorem C4_overflow_discards_chunk {σ α : Type} (chunk : σ → ChunkOut σ α)
    (save_every print_every : ℕ) (s : LoopState σ α)
    (h : (chunk s.state).nbr_overflow = true ∨ (chunk s.state).rcut_overflow = true) :
    (loop_body chunk save_every print_every s).i = s.i ∧
    (loop_body chunk save_every print_every s).state = s.state ∧
    (loop_body chunk save_every print_every s).pos_traj = s.pos_traj ∧
    (loop_body chunk save_every print_every s).vel_traj = s.vel_traj := by
  unfold loop_body
  by_cases h1 : (chunk s.state).nbr_overflow
  · by_cases h2 : s.nbrs_flag <;> simp [h1, h2]
  · have h3 : (chunk s.state).rcut_overflow = true := by
      rcases h with h | h
      · exact absurd h h1
      · exact h
    by_cases h4 : s.update_every = 1 <;> simp [h1, h3, h4]

theorem C4_overflow_discards_chunk_witness :
    ((chunk_nbr_overflow s_start.state).nbr_overflow = true ∨
      (chunk_nbr_overflow s_start.state).rcut_overflow = true) ∧
    ((loop_body chunk_nbr_overflow 1 200 s_start).i = s_start.i ∧
      (loop_body chunk_nbr_overflow 1 200 s_start).state = s_start.state ∧
      (loop_body chunk_nbr_overflow 1 200 s_start).pos_traj = s_start.pos_traj ∧
      (loop_body chunk_nbr_overflow 1 200 s_start).vel_traj = s_start.vel_traj) :=
  ⟨Or.inl rfl, C4_overflow_discards_chunk chunk_nbr_overflow 1 200 s_start (Or.inl rfl)⟩

/-- Claim C8 counterexample: the temperature factor applied in simulate.py
(8.61733e-5) differs from md.py's temperature_unit_convertion (8.617333e-5),
so the same constant is not used at every use site. -/
theorem C8_temperature_constant_mismatch :
    simulate_temp_factor ≠ temperature_unit_convertion := by
  norm_num [simulate_temp_factor, temperature_unit_convertion]

/-- Claim C8 (amended): the mass factor 103.6427 agrees at both its use sites and
the pressure factor is 6.241509e-7 at its single site, but md.py applies the
temperature factor 8.617333e-5 while simulate.py applies the truncated
8.61733e-5, so the temperature constant differs between use sites. -/
theorem C8_constants_values :
    mass_unit_convertion = 1036427 / 10000 ∧
    simulate_mass_factor = mass_unit_convertion ∧
    temperature_unit_convertion = 8617333 / 100000000000 ∧
    pressure_unit_convertion = 6241509 / 10000000000000 ∧
    simulate_temp_factor = 861733 / 10000000000 ∧
    simulate_temp_factor ≠ temperature_unit_convertion :=
  ⟨rfl, rfl, rfl, rfl, rfl, by norm_num [simulate_temp_factor, temperature_unit_convertion]⟩

/-- Claim C10: Simulation.check_soft_overflow is the constant False, so the
lax.cond branch that would refresh the neighbor table inside a compiled chunk is
never taken: threading any chunk of inner steps leaves the neighbor state
untouched. -/
theorem C10_soft_overflow_stub_never_updates {ν : Type} (update : ν → ν) (nbrs : ν)
    (steps : List (List Vec3 × List Vec3 × Option Vec3)) :
    (∀ p rp b, check_soft_overflow p rp b = false) ∧
    chunk_nbrs update nbrs steps = nbrs := by
  refine ⟨fun _ _ _ => rfl, ?_⟩
  induction steps generalizing nbrs with
  | nil => rfl
  | cons a l ih =>
    simp only [chunk_nbrs, List.foldl_cons, inner_step_nbrs, check_soft_overflow,
      Bool.false_eq_true, if_false]
    exact ih nbrs

/-- Claim C9 counterexample: NeighborList.allocate recomputes the per-type row
capacity from the occupancy observed in the current configuration only, so a
reallocation can shrink it: with safety factor 1.2, an observed occupancy of 5
allocates rows of width 7, and a later reallocation observing occupancy 2
allocates width 3 < 7. -/
theorem C9_capacity_can_shrink :
    allocate_knbr [5] (6 / 5) = [7] ∧ allocate_knbr [2] (6 / 5) = [3] ∧
    (allocate_knbr [2] (6 / 5)).getD 0 0 < (allocate_knbr [5] (6 / 5)).getD 0 0 := by
  have h5 : knbr_final 5 (6 / 5) = 7 := by
    have e : knbr_entry 5 (6 / 5) = 6 := by
      unfold knbr_entry py_trunc
      norm_num
      rfl
    unfold knbr_final
    rw [e]
    norm_num [py_trunc]
  have h2 : knbr_final 2 (6 / 5) = 3 := by
    have e : knbr_entry 2 (6 / 5) = 2 := by
      unfold knbr_entry py_trunc
      norm_num
      rfl
    unfold knbr_final
    rw [e]
    norm_num [py_trunc]
  refine ⟨by simp [allocate_knbr, h5], by simp [allocate_knbr, h2], ?_⟩
  simp [allocate_knbr, h5, h2]

/-- Claim C9 (amended): the capacity written by a reallocation is a function of
the currently observed per-type occupancy and the safety factor alone; it is
monotone in the observed occupancy for a fixed nonnegative safety factor, and
the safety factor buffer_size itself never decreases across loop iterations —
but the row capacity is not monotone across reallocations (it shrinks when the
observed occupancy shrinks). -/
theorem C9_capacity_occupancy_monotone :
    (∀ occ1 occ2 size, occ1 ≤ occ2 → 0 ≤ size →
      knbr_final occ1 size ≤ knbr_final occ2 size) ∧
    (∀ (chunk : ℚ → ChunkOut ℚ ℚ) (k p : ℕ) (s : LoopState ℚ ℚ),
      s.buffer_size ≤ (loop_body chunk k p s).buffer_size) := by
  constructor
  · intro occ1 occ2 size h hs
    have hent : knbr_entry occ1 size ≤ knbr_entry occ2 size := by
      unfold knbr_entry py_trunc
      have h0 : (0 : ℚ) ≤ (occ1 : ℚ) * size := mul_nonneg (by positivity) hs
      have h0' : (0 : ℚ) ≤ (occ2 : ℚ) * size := mul_nonneg (by positivity) hs
      rw [if_pos h0, if_pos h0']
      exact Int.toNat_le_toNat (Int.floor_le_floor
        (mul_le_mul_of_nonneg_right (by exact_mod_cast h) hs))
    unfold knbr_final
    by_cases h1 : knbr_entry occ1 size = 0
    · rw [if_pos h1]
      by_cases h2 : knbr_entry occ2 size = 0
      · rw [if_pos h2]
      · rw [if_neg h2]; omega
    · have h2 : ¬ knbr_entry occ2 size = 0 := by omega
      rw [if_neg h1, if_neg h2]; omega
  · intro chunk k p s
    unfold loop_body
    by_cases h1 : (chunk s.state).nbr_overflow <;>
      by_cases h2 : s.nbrs_flag <;>
      by_cases h3 : (chunk s.state).rcut_overflow <;>
      by_cases h4 : s.update_every = 1 <;>
      simp [h1, h2, h3, h4] <;> linarith

theorem C9_capacity_occupancy_monotone_witness :
    knbr_final 2 2 ≤ knbr_final 5 2 ∧
    s_start.buffer_size ≤ (loop_body chunk_no_overflow 1 5 s_start).buffer_size :=
  ⟨C9_capacity_occupancy_monotone.1 2 5 2 (by decide) zero_le_two,
   C9_capacity_occupancy_monotone.2 chunk_no_overflow 1 5 s_start⟩

/-- Claim C6 counterexample: the source check fires on a displacement that does
NOT exceed half the buffer: with box (10,10,10), buffer 1 and a single atom
displaced by 0.495 < 0.5, check_dr_overflow returns true (its threshold is
dr_buffer/2 - 0.01) while the specified half-buffer criterion returns false. -/
theorem C6_margin_counterexample :
    check_dr_overflow [(99 / 200, 0, 0)] [(0, 0, 0)] (10, 10, 10) 1 = true ∧
    check_dr_overflow_claim [(99 / 200, 0, 0)] [(0, 0, 0)] (10, 10, 10) 1 = false := by
  have hm : min_image ((99 : ℚ) / 200 - 0) 10 = 99 / 200 := by
    unfold min_image qmod
    rw [show ((99 : ℚ) / 200 - 0 - 10 / 2) / 10 = -901 / 2000 by norm_num]
    rw [show (⌊(-901 : ℚ) / 2000⌋ = -1) from by norm_num [Int.floor_eq_iff]]
    norm_num
  have h0 : min_image ((0 : ℚ) - 0) 10 = 0 := by
    unfold min_image qmod
    rw [show ((0 : ℚ) - 0 - 10 / 2) / 10 = -1 / 2 by norm_num]
    rw [show (⌊(-1 : ℚ) / 2⌋ = -1) from by norm_num [Int.floor_eq_iff]]
    norm_num
  have hsq : sq_disp ((99 : ℚ) / 200, 0, 0) (0, 0, 0) (10, 10, 10) = 9801 / 40000 := by
    unfold sq_disp
    simp only [hm, h0]
    norm_num
  constructor
  · simp only [check_dr_overflow, List.zip, List.zipWith, List.any, hsq, norm_gt]
    norm_num
  · simp only [check_dr_overflow_claim, List.zip, List.zipWith, List.any, hsq, norm_gt]
    norm_num

/-- Claim C6 (amended): check_dr_overflow returns true iff some atom's
minimum-image displacement since the reference configuration exceeds half the
neighbor-skin buffer MINUS the hard-coded safety margin 0.01. -/
theorem C6_overflow_iff_margin_exceeded (coord ref : List Vec3) (box : Vec3)
    (dr_buffer : ℚ) :
    check_dr_overflow coord ref box dr_buffer = true ↔
    ∃ p ∈ coord.zip ref,
      ((dr_buffer / 2 - 1 / 100 : ℚ) : ℝ) <
        Real.sqrt ((sq_disp p.1 p.2 box : ℚ) : ℝ) := by
  unfold check_dr_overflow
  rw [List.any_eq_true]
  exact exists_congr fun p => and_congr_right fun _ => norm_gt_iff_sqrt _ _

/-- Claim C7 counterexample: supplying BOTH velocity and an initial temperature
violates the exactly-one rule stated by the claim, yet Simulation.__init__
raises nothing (its check on line 54 fires only when both are absent), so the
claimed set of fatal construction errors is not exact. -/
theorem C7_both_velocity_and_temperature_accepted :
    fatal_error_claim_condition (some 0) (some 300) "NVE" true true
      (BoxDesc.ortho 1 1 1) ∧
    init_error (some 0) (some 300) "NVE" true true (BoxDesc.ortho 1 1 1) = none := by
  constructor
  · unfold fatal_error_claim_condition
    right; right; right; right
    simp
  · unfold init_error compute_lattice_candidate_error routine_error box_has_nonpositive_dim
    norm_num

/-- Claim C7 (amended): Simulation construction fails exactly when neither
velocity nor an initial temperature is supplied, or a box dimension is
non-positive, or the routine is NVT_Nose_Hoover without a temperature,
NPT_Nose_Hoover without a temperature or pressure, or an unsupported name.
Supplying both velocity and an initial temperature raises nothing; the explicit
velocity argument is then ignored and the kT-sampled velocity is kept, because
line 122 applies the velocity argument only when init_temperature is None. -/
theorem C7_construction_error_cases (v t : Option ℚ) (r : String) (hT hP : Bool)
    (box : BoxDesc) :
    ((init_error v t r hT hP box).isSome = true ↔
      (v = none ∧ t = none) ∨ box_has_nonpositive_dim box = true ∨
      (r = "NVT_Nose_Hoover" ∧ hT = false) ∨
      (r = "NPT_Nose_Hoover" ∧ (hT = false ∨ hP = false)) ∨
      (r ≠ "NVE" ∧ r ≠ "NVT_Nose_Hoover" ∧ r ≠ "NPT_Nose_Hoover")) ∧
    (∀ vel tq sampled : ℚ, init_velocity_used (some vel) (some tq) sampled = some sampled) := by
  constructor
  · unfold init_error compute_lattice_candidate_error routine_error
    rcases v with _ | v <;> rcases t with _ | t <;>
      by_cases hb : box_has_nonpositive_dim box = true <;>
      simp only [hb, Option.isNone_none, Option.isNone_some, Bool.and_self,
        Bool.false_and, Bool.and_false, eq_self_iff_true, if_true, if_false] <;>
    first
    | (split_ifs <;> simp_all)
    | simp_all
  · intro vel tq sampled
    rfl

/- ---------- C5: partitioner drops are always flagged ---------- -/

theorem mask_apply_keeps_real (K : ℕ) (tc : List ℕ) (i r v : ℕ)
    (hreal : real_slot_of_type K tc i v) (hrecv : slot_real K tc r = true) :
    mask_apply K tc i r v = v := by
  obtain ⟨h1, h2, h3, h4⟩ := hreal
  unfold mask_apply mask_cond
  rw [if_pos]
  simp only [Bool.and_eq_true, decide_eq_true_eq]
  refine ⟨⟨⟨⟨hrecv, h2⟩, h3⟩, ?_⟩, h1⟩
  have hv : n_each K tc * (v / n_each K tc) + v % n_each K tc = v :=
    Nat.div_add_mod v _
  have hvz : (v : ℤ) = (n_each K tc : ℤ) * ((v / n_each K tc : ℕ) : ℤ) +
      ((v % n_each K tc : ℕ) : ℤ) := by exact_mod_cast hv.symm
  have hof : ((v % n_each K tc - type_idx_filled K tc i : ℕ) : ℤ) =
      ((v % n_each K tc : ℕ) : ℤ) - ((type_idx_filled K tc i : ℕ) : ℤ) :=
    Nat.cast_sub h2
  have h4z : ((v / n_each K tc : ℕ) : ℤ) * (((type_count_new K tc).getD i 0 : ℕ) : ℤ) +
      (((v % n_each K tc : ℕ) : ℤ) - ((type_idx_filled K tc i : ℕ) : ℤ)) <
      ((tc.getD i 0 : ℕ) : ℤ) := by
    rw [← hof]
    exact_mod_cast h4
  rw [hvz]
  ring_nf
  ring_nf at h4z
  linarith

/-- Claim C5: whenever the type/device partitioner drops a true neighbor -- a
real atom slot of type i present in the raw neighbor row of a real receiver
slot but absent from the kept per-type row (whether masked at a partition
boundary or pushed out by the per-type row width) -- the overflow flag computed
by get_nm is true: a dropped true neighbor never coexists with a false flag. -/
theorem C5_dropped_neighbor_flagged (K : ℕ) (tc knbr : List ℕ)
    (table : List (List ℕ)) (dbo : Bool) (i r v : ℕ)
    (hi : i < tc.length) (hr : r < table.length)
    (hreal : real_slot_of_type K tc i v)
    (hrecv : slot_real K tc r = true)
    (hmem : v ∈ table.getD r [])
    (hdrop : v ∉ kept_row K tc i r (knbr.getD i 0) (table.getD r [])) :
    get_nm_overflow K tc knbr table dbo = true := by
  have hS : 0 < sentinel K tc := lt_of_le_of_lt (Nat.zero_le v) hreal.1
  have hvm : v ∈ (table.getD r []).map (mask_apply K tc i r) :=
    List.mem_map.mpr ⟨v, hmem, mask_apply_keeps_real K tc i r v hreal hrecv⟩
  have hvs : v ∈ List.insertionSort (· ≤ ·) ((table.getD r []).map (mask_apply K tc i r)) :=
    (List.perm_insertionSort _ _).mem_iff.mpr hvm
  have hsplit := List.take_append_drop (knbr.getD i 0)
    (List.insertionSort (· ≤ ·) ((table.getD r []).map (mask_apply K tc i r)))
  have hvdrop : v ∈ (List.insertionSort (· ≤ ·)
      ((table.getD r []).map (mask_apply K tc i r))).drop (knbr.getD i 0) := by
    rcases List.mem_append.mp (hsplit ▸ hvs) with h | h
    · exact absurd h hdrop
    · exact h
  have hsorted : List.Sorted (· ≤ ·)
      (List.insertionSort (· ≤ ·) ((table.getD r []).map (mask_apply K tc i r))) :=
    List.sorted_insertionSort _ _
  have hcross : ∀ a ∈ kept_row K tc i r (knbr.getD i 0) (table.getD r []), a ≤ v := by
    have hps : List.Pairwise (· ≤ ·)
        ((List.insertionSort (· ≤ ·)
          ((table.getD r []).map (mask_apply K tc i r))).take (knbr.getD i 0) ++
         (List.insertionSort (· ≤ ·)
          ((table.getD r []).map (mask_apply K tc i r))).drop (knbr.getD i 0)) := by
      rw [hsplit]
      exact hsorted
    exact fun a ha => (List.pairwise_append.mp hps).2.2 a ha v hvdrop
  have hfull : row_full K tc (kept_row K tc i r (knbr.getD i 0) (table.getD r [])) = true := by
    unfold row_full
    rw [decide_eq_true_eq]
    exact foldr_max_lt _ _ hS fun x hx => lt_of_le_of_lt (hcross x hx) hreal.1
  unfold get_nm_overflow
  rw [Bool.or_eq_true]
  left
  rw [List.any_eq_true]
  refine ⟨i, List.mem_range.mpr hi, ?_⟩
  rw [List.any_eq_true]
  exact ⟨r, List.mem_range.mpr hr, hfull⟩

theorem C5_dropped_neighbor_flagged_witness :
    ((0 : ℕ) < [3].length ∧ (0 : ℕ) < [[0, 1]].length ∧
      real_slot_of_type 2 [3] 0 1 ∧ slot_real 2 [3] 0 = true ∧
      (1 : ℕ) ∈ ([[0, 1]].getD 0 []) ∧
      (1 : ℕ) ∉ kept_row 2 [3] 0 0 ([1].getD 0 0) ([[0, 1]].getD 0 [])) ∧
    get_nm_overflow 2 [3] [1] [[0, 1]] false = true :=
  ⟨⟨by decide, by decide, by decide, by decide, by decide, by decide⟩,
   C5_dropped_neighbor_flagged 2 [3] [1] [[0, 1]] false 0 0 1 (by decide) (by decide)
     (by decide) (by decide) (by decide) (by decide)⟩
